import Mathlib

/-!
Shallow embedding of `steem/transactionbuilder.py` (class `TransactionBuilder`)
from the steem-python repository, together with proofs about its behaviour.

The builder orchestrates operation accumulation, authority resolution,
incremental signing and authority-checked broadcast.  External collaborators
(`Wallet`, `Account`, `PrivateKey`, `SignedTransaction`, the chain RPC client)
live outside `src/`; where their behaviour decides a property they are
modelled from the specification and marked as such.
-/

set_option autoImplicit false

namespace SteemTB

/-- Public key strings (e.g. `"STM..."`). -/
abbrev PubKey := String

/-- Encoded private key material (wif strings). -/
abbrev Wif := String

/-- Signature strings. -/
abbrev Sig := String

/-- Opaque chain-parameter snapshot (`steem.chain_params`). -/
abbrev ChainParams := String

/-- Error kinds raised by the builder, named after the spec's error kinds.
`invalidConstructionInput` is `ValueError("Invalid TransactionBuilder Format")`,
`invalidPermissionLevel` is `ValueError("Invalid permission")`,
`keyError` is a Python `KeyError` from subscripting an account record with an
unknown permission name. -/
inductive Err
  | invalidConstructionInput
  | invalidPermissionLevel
  | invalidKeyFormat
  | missingSigningKey
  | insufficientAuthority
  | transmissionFailure
  | accountNotFound
  | keyError
deriving DecidableEq, Repr

/-- An `Authority` record of an account for one permission level, as stored in
the account record: weighted key auths and weighted delegated-account auths. -/
structure Authority where
  weight_threshold : Nat
  key_auths : List (PubKey × Nat)
  account_auths : List (String × Nat)
deriving DecidableEq, Repr

/-- The part of an on-chain account record the builder reads: the account name
and the `Authority` stored under each of the three permission keys. -/
structure AccountData where
  name : String
  owner : Authority
  active : Authority
  posting : Authority
deriving DecidableEq, Repr

/-- Subscripting an account record with a permission name
(`accountObj[permission]` returns the authority, any other key is a miss;
`accountObj.get(permission)` is the `Option`-valued variant). -/
def AccountData.getPerm (a : AccountData) (permission : String) : Option Authority :=
  if permission = "owner" then some a.owner
  else if permission = "active" then some a.active
  else if permission = "posting" then some a.posting
  else none

/-- Modelled from the spec: the external collaborators consumed by the builder,
none of which are under `src/`.  `accounts` is the AccountDirectory behind
`Account(name, steem_instance=...)` ("fails if account unknown");
`keyFor` is the KeyStore behind `Wallet.get{Active,Posting,Owner}KeyForAccount`
("getKeyForPermission(accountName, level) -> keyMaterial | not-found");
`chain_params` is the ChainParameterSnapshot exposed by the ChainClient. -/
structure Env where
  accounts : String → Option AccountData
  keyFor : String → String → Option Wif
  chain_params : ChainParams

/-- The builder's mutable state: constructor flags, the raw operation list
`op`, the pending signer list `wifs`, and the transaction-shaped dict contents
the claims are about (`signatures`, `required_authorities`,
`missing_signatures`, `blockchain`).  `required_authorities` is an insertion
ordered dict from account name to its (possibly absent) authority snapshot. -/
structure TransactionBuilder where
  no_broadcast : Bool
  expiration : Nat
  op : List String
  wifs : List Wif
  signatures : List Sig
  required_authorities : List (String × Option Authority)
  missing_signatures : List PubKey
  blockchain : Option ChainParams
deriving DecidableEq, Repr

/-- Transaction-shaped dict contents used to seed a builder. -/
structure TxDict where
  signatures : List Sig := []
  required_authorities : List (String × Option Authority) := []
  missing_signatures : List PubKey := []
  blockchain : Option ChainParams := none
deriving DecidableEq, Repr

/-- A Python value passed as the `tx` seed of `TransactionBuilder.__init__`:
either a dict (transaction-shaped mapping) or a non-dict value, of which only
its truthiness matters to the constructor (`if tx and not isinstance(tx, dict)`).
A dict seed's own truthiness is irrelevant: a falsy (empty) dict has the same
content as `{}`. -/
inductive Seed
  | dict (content : TxDict)
  | nonDict (truthy : Bool)
deriving DecidableEq, Repr

/-- A builder with empty dict contents, as produced by `__init__` without a
seed. -/
def TransactionBuilder.empty (no_broadcast : Bool) (expiration : Nat) :
    TransactionBuilder :=
  { no_broadcast := no_broadcast, expiration := expiration, op := [], wifs := [],
    signatures := [], required_authorities := [], missing_signatures := [],
    blockchain := none }

/-- `TransactionBuilder.__init__(tx, steem_instance, no_broadcast, expiration)`:
raises `ValueError("Invalid TransactionBuilder Format")` when `tx` is truthy
and not a dict (`if tx and not isinstance(tx, dict)`); otherwise seeds the
dict contents with `tx or {}`. -/
def TransactionBuilder.init (no_broadcast : Bool) (expiration : Nat)
    (tx : Option Seed) : Except Err TransactionBuilder :=
  match tx with
  | some (Seed.nonDict true) => Except.error Err.invalidConstructionInput
  | some (Seed.nonDict false) => Except.ok (TransactionBuilder.empty no_broadcast expiration)
  | some (Seed.dict c) =>
    Except.ok { no_broadcast := no_broadcast, expiration := expiration, op := [], wifs := [],
                signatures := c.signatures,
                required_authorities := c.required_authorities,
                missing_signatures := c.missing_signatures,
                blockchain := c.blockchain }
  | none => Except.ok (TransactionBuilder.empty no_broadcast expiration)

/-- `TransactionBuilder.appendSigner(account, permission)`: looks the account
up (fails if unknown), dispatches on the permission string, resolves the wif
from the wallet for `"active"`, `"posting"` or `"owner"`, raises
`ValueError("Invalid permission")` for any other tag, and appends the resolved
wif to `self.wifs`.  A wallet miss is a `missingSigningKey` failure. -/
def TransactionBuilder.appendSigner (env : Env) (b : TransactionBuilder)
    (account permission : String) : Except Err TransactionBuilder :=
  match env.accounts account with
  | none => Except.error Err.accountNotFound
  | some acct =>
    let wifRes : Except Err Wif :=
      if permission = "active" then
        match env.keyFor acct.name "active" with
        | some w => Except.ok w
        | none => Except.error Err.missingSigningKey
      else if permission = "posting" then
        match env.keyFor acct.name "posting" with
        | some w => Except.ok w
        | none => Except.error Err.missingSigningKey
      else if permission = "owner" then
        match env.keyFor acct.name "owner" with
        | some w => Except.ok w
        | none => Except.error Err.missingSigningKey
      else Except.error Err.invalidPermissionLevel
    match wifRes with
    | Except.error e => Except.error e
    | Except.ok wif => Except.ok { b with wifs := b.wifs ++ [wif] }

/-- `TransactionBuilder.appendWif(wif)`: a falsy `wif` (`if wif:` — the empty
string) is silently ignored; otherwise `PrivateKey(wif)` is attempted, and on
failure `InvalidKeyFormat` is raised with `self.wifs` untouched, on success
`wif` is appended.  `pkValid` stands for whether the `PrivateKey` constructor
(steembase, outside `src/`) accepts the encoding — the spec's "validates the
key encoding". -/
def TransactionBuilder.appendWif (pkValid : Wif → Bool) (b : TransactionBuilder)
    (wif : Wif) : Except Err TransactionBuilder :=
  if wif = "" then Except.ok b
  else if pkValid wif then Except.ok { b with wifs := b.wifs ++ [wif] }
  else Except.error Err.invalidKeyFormat

/-- Python truthiness of a wif string (non-empty), as tested by
`any(self.wifs)`. -/
def wifTruthy (w : Wif) : Bool := w != ""

/-- Modelled from the spec: `SignedTransaction.sign(wifs, chain)`
(steembase.transactions, not under `src/`) "produces one signature per
PendingSigner over the transaction's signing digest (digest computation is an
external/collaborator concern — treat as opaque)"; the resulting
`signatures` field of the signed transaction is one signature per wif.
`sigOf` abstracts the opaque digest-and-sign step. -/
def signedTransactionSign (sigOf : Wif → Sig) (wifs : List Wif) : List Sig :=
  wifs.map sigOf

/-- `TransactionBuilder.sign()`: rebuilds a `SignedTransaction` from the
current dict state (`shapeOk` stands for that construction succeeding; on
failure `ValueError("Invalid TransactionBuilder Format")` is raised), then
requires `any(self.wifs)` (else `MissingKeyError`), signs with every pending
wif and extends `self["signatures"]` with the produced signatures. -/
def TransactionBuilder.sign (shapeOk : Bool) (sigOf : Wif → Sig)
    (b : TransactionBuilder) : Except Err TransactionBuilder :=
  if !shapeOk then Except.error Err.invalidConstructionInput
  else if !(b.wifs.any wifTruthy) then Except.error Err.missingSigningKey
  else Except.ok { b with signatures := b.signatures ++ signedTransactionSign sigOf b.wifs }

/-- The two ChainClient calls `broadcast()` can make, in order. -/
inductive ChainCall
  | verifyAuthority
  | broadcastTransaction
deriving DecidableEq, Repr

/-- `TransactionBuilder.broadcast()`: with `no_broadcast` set, logs and
returns `self` untouched, contacting nothing.  Otherwise calls
`steem.verify_authority(self.json())` (its result is `verifyResult`), raising
`InsufficientAuthorityError` when false, then calls
`steem.broadcast_transaction(self.json())` (`broadcastOk` stands for that call
not raising), re-raising its failure, and returns `self`.  The second
component records which ChainClient calls were made, in order. -/
def TransactionBuilder.broadcast (b : TransactionBuilder)
    (verifyResult broadcastOk : Bool) :
    Except Err TransactionBuilder × List ChainCall :=
  if b.no_broadcast then (Except.ok b, [])
  else if !verifyResult then
    (Except.error Err.insufficientAuthority, [ChainCall.verifyAuthority])
  else if broadcastOk then
    (Except.ok b, [ChainCall.verifyAuthority, ChainCall.broadcastTransaction])
  else
    (Except.error Err.transmissionFailure,
      [ChainCall.verifyAuthority, ChainCall.broadcastTransaction])

/-- Python `dict.update({k: v})` on an insertion-ordered association list:
an existing key keeps its position and gets the new value, a new key is
appended. -/
def dictUpdate (d : List (String × Option Authority)) (k : String)
    (v : Option Authority) : List (String × Option Authority) :=
  if d.any (fun p => p.1 == k) then
    d.map (fun p => if p.1 = k then (k, v) else p)
  else d ++ [(k, v)]

/-- The first `for account_auth in authority["account_auths"]` loop of
`addSigningInformation`: each delegated account is looked up (fails if
unknown) and `required_authorities` is updated with its
`.get(permission)` authority snapshot. -/
def requiredAuthsLoop (env : Env) (permission : String)
    (ra : List (String × Option Authority)) :
    List (String × Nat) → Except Err (List (String × Option Authority))
  | [] => Except.ok ra
  | aa :: rest =>
    match env.accounts aa.1 with
    | none => Except.error Err.accountNotFound
    | some a =>
      requiredAuthsLoop env permission (dictUpdate ra aa.1 (a.getPerm permission)) rest

/-- The second `for account_auth in authority["account_auths"]` loop of
`addSigningInformation`: each delegated account is looked up (fails if
unknown), subscripted with the same permission (a miss is a `KeyError`), and
the public keys of its `key_auths` are appended to `missing_signatures`. -/
def missingSigsLoop (env : Env) (permission : String) (ms : List PubKey) :
    List (String × Nat) → Except Err (List PubKey)
  | [] => Except.ok ms
  | aa :: rest =>
    match env.accounts aa.1 with
    | none => Except.error Err.accountNotFound
    | some a =>
      match a.getPerm permission with
      | none => Except.error Err.keyError
      | some auth =>
        missingSigsLoop env permission (ms ++ auth.key_auths.map Prod.fst) rest

/-- The values `addSigningInformation(account, permission)` computes for
`required_authorities` and `missing_signatures`: both are derived from the
directory and the call's arguments alone.  `required_authorities` starts as
the fresh one-entry dict `{account: authority}` (`self.update(...)` replaces
any previous mapping wholesale) and `missing_signatures` starts as the target
authority's `key_auths` public keys (plain assignment, replacing any previous
list); each is then extended over `account_auths` by its loop. -/
def addSigningInformationCore (env : Env) (account permission : String) :
    Except Err (List (String × Option Authority) × List PubKey) :=
  match env.accounts account with
  | none => Except.error Err.accountNotFound
  | some accountObj =>
    match accountObj.getPerm permission with
    | none => Except.error Err.keyError
    | some authority =>
      match requiredAuthsLoop env permission [(account, some authority)]
          authority.account_auths with
      | Except.error e => Except.error e
      | Except.ok ra =>
        match missingSigsLoop env permission (authority.key_auths.map Prod.fst)
            authority.account_auths with
        | Except.error e => Except.error e
        | Except.ok ms => Except.ok (ra, ms)

/-- `TransactionBuilder.addSigningInformation(account, permission)`: overwrites
`required_authorities` and `missing_signatures` with the freshly computed
values and stores the chain-parameter snapshot under `"blockchain"`. -/
def TransactionBuilder.addSigningInformation (env : Env) (b : TransactionBuilder)
    (account permission : String) : Except Err TransactionBuilder :=
  match addSigningInformationCore env account permission with
  | Except.error e => Except.error e
  | Except.ok res =>
    Except.ok { b with required_authorities := res.1,
                       missing_signatures := res.2,
                       blockchain := some env.chain_params }

/-- The public keys a depth-1 delegated account contributes to
`missing_signatures`: the `key_auths` public keys of its authority at the same
permission level (empty when the lookup misses, which the hypotheses of the
theorems below exclude). -/
def delegatedKeys (env : Env) (permission : String) (aa : String × Nat) :
    List PubKey :=
  match env.accounts aa.1 with
  | none => []
  | some a =>
    match a.getPerm permission with
    | none => []
    | some auth => auth.key_auths.map Prod.fst

/-! ### Example data used by the witness theorems -/

/-- Authority of the example account `alice` at the `active` level:
`{keyAuths: [(pubA, 1)], accountAuths: [("bob", 1)]}`. -/
def aliceActive : Authority :=
  { weight_threshold := 1, key_auths := [("pubA", 1)], account_auths := [("bob", 1)] }

/-- Authority of the example account `bob` at the `active` level:
`{keyAuths: [(pubB, 1)], accountAuths: []}`. -/
def bobActive : Authority :=
  { weight_threshold := 1, key_auths := [("pubB", 1)], account_auths := [] }

/-- A plain authority with no key auths and no account auths. -/
def trivialAuthority : Authority :=
  { weight_threshold := 1, key_auths := [], account_auths := [] }

/-- Example account record for `alice`. -/
def aliceAcct : AccountData :=
  { name := "alice", owner := trivialAuthority, active := aliceActive,
    posting := trivialAuthority }

/-- Example account record for `bob`. -/
def bobAcct : AccountData :=
  { name := "bob", owner := trivialAuthority, active := bobActive,
    posting := trivialAuthority }

/-- Example environment: a directory holding `alice` and `bob`, a keystore
holding one active key for `alice`, and a fixed chain snapshot. -/
def egEnv : Env :=
  { accounts := fun n =>
      if n = "alice" then some aliceAcct
      else if n = "bob" then some bobAcct
      else none,
    keyFor := fun n p =>
      if n = "alice" && p = "active" then some "5Jalice" else none,
    chain_params := "steem-chain" }

/-- A fresh builder used by the witnesses (not in dry-run mode). -/
def egBuilder : TransactionBuilder := TransactionBuilder.empty false 30

/-- A builder carrying authority data recorded by an earlier
`addSigningInformation` call for a different account. -/
def egStaleBuilder : TransactionBuilder :=
  { egBuilder with
      required_authorities := [("carol", none)],
      missing_signatures := ["pubC"] }

/-- The dict contents `addSigningInformation("alice", "active")` writes over
any builder in the example environment. -/
def egResolved (b : TransactionBuilder) : TransactionBuilder :=
  { b with
      required_authorities := [("alice", some aliceActive), ("bob", some bobActive)],
      missing_signatures := ["pubA", "pubB"],
      blockchain := some "steem-chain" }

/-! ### Claim theorems -/

/-- C3: on a builder holding a well-formed transaction whose pending signer
list `wifs` is empty, `sign()` fails with `MissingSigningKey`; the raise
happens before the only mutation of `signatures`, so the signatures sequence
is left unchanged (in particular, empty if it was empty). -/
theorem sign_empty_wifs_missing_key (sigOf : Wif → Sig) (b : TransactionBuilder)
    (hw : b.wifs = []) :
    TransactionBuilder.sign true sigOf b = Except.error Err.missingSigningKey := by
  simp [TransactionBuilder.sign, hw]

/-- C3 witness: a fresh builder has empty `wifs`, and `sign()` on it fails
with `MissingSigningKey`. -/
theorem sign_empty_wifs_missing_key_witness :
    TransactionBuilder.sign true (fun w => "sig:" ++ w) egBuilder =
      Except.error Err.missingSigningKey :=
  sign_empty_wifs_missing_key (fun w => "sig:" ++ w) egBuilder rfl

/-- C2: two successive `sign()` calls on the same well-formed builder, first
with pending signers `ws1` and then with a disjoint set `ws2`, append: the
first call extends `signatures` with the signatures produced for `ws1`, the
second call extends that with the signatures produced for `ws2`, and the final
sequence is the original signatures followed by first-call signatures followed
by second-call signatures — no earlier entry is removed or reordered. -/
theorem sign_twice_appends (sigOf : Wif → Sig) (b : TransactionBuilder)
    (ws1 ws2 : List Wif)
    (h1 : ws1.any wifTruthy = true) (h2 : ws2.any wifTruthy = true)
    (hdisj : ∀ w ∈ ws1, w ∉ ws2) :
    ∃ b1 b2,
      TransactionBuilder.sign true sigOf { b with wifs := ws1 } = Except.ok b1 ∧
      TransactionBuilder.sign true sigOf { b1 with wifs := ws2 } = Except.ok b2 ∧
      b1.signatures = b.signatures ++ signedTransactionSign sigOf ws1 ∧
      b2.signatures = b1.signatures ++ signedTransactionSign sigOf ws2 ∧
      b2.signatures =
        b.signatures ++
          (signedTransactionSign sigOf ws1 ++ signedTransactionSign sigOf ws2) := by
  refine ⟨{ b with
              wifs := ws1,
              signatures := b.signatures ++ signedTransactionSign sigOf ws1 },
          { b with
              wifs := ws2,
              signatures := (b.signatures ++ signedTransactionSign sigOf ws1) ++
                signedTransactionSign sigOf ws2 },
          ?_, ?_, rfl, rfl, List.append_assoc ..⟩
  · simp [TransactionBuilder.sign, h1]
  · simp [TransactionBuilder.sign, h2]

/-- C2 witness: signing first with `["5Jone"]` and then with the disjoint set
`["5Jtwo"]` yields the two signatures in order. -/
theorem sign_twice_appends_witness :
    ∃ b1 b2,
      TransactionBuilder.sign true (fun w => "sig:" ++ w)
          { egBuilder with wifs := ["5Jone"] } = Except.ok b1 ∧
      TransactionBuilder.sign true (fun w => "sig:" ++ w)
          { b1 with wifs := ["5Jtwo"] } = Except.ok b2 ∧
      b1.signatures = egBuilder.signatures ++
        signedTransactionSign (fun w => "sig:" ++ w) ["5Jone"] ∧
      b2.signatures = b1.signatures ++
        signedTransactionSign (fun w => "sig:" ++ w) ["5Jtwo"] ∧
      b2.signatures = egBuilder.signatures ++
        (signedTransactionSign (fun w => "sig:" ++ w) ["5Jone"] ++
          signedTransactionSign (fun w => "sig:" ++ w) ["5Jtwo"]) :=
  sign_twice_appends (fun w => "sig:" ++ w) egBuilder ["5Jone"] ["5Jtwo"]
    (by decide) (by decide) (by decide)

/-- C9: a falsy wif (the empty string — `if wif:` fails) is silently dropped
by `appendWif`: no error is raised and `wifs` is left unchanged, regardless of
what the key-format validator would say. -/
theorem appendWif_falsy_silently_dropped (pkValid : Wif → Bool)
    (b : TransactionBuilder) :
    TransactionBuilder.appendWif pkValid b "" = Except.ok b := by
  simp [TransactionBuilder.appendWif]

/-- C4 counterexample: the empty string is malformed key material (here the
validator rejects every input), yet `appendWif` does not fail with
`InvalidKeyFormat` — the falsy check `if wif:` short-circuits first and the
call returns successfully. -/
theorem appendWif_empty_malformed_not_rejected :
    TransactionBuilder.appendWif (fun _ => false) egBuilder "" = Except.ok egBuilder ∧
    TransactionBuilder.appendWif (fun _ => false) egBuilder "" ≠
      Except.error Err.invalidKeyFormat := by
  refine ⟨by simp [TransactionBuilder.appendWif], ?_⟩
  simp [TransactionBuilder.appendWif]

/-- C4 (amended): for every non-empty (truthy) input, `appendWif` fails with
`InvalidKeyFormat` when the key encoding is malformed — raising before the
append, so `wifs` is exactly as before — and appends the input to `wifs` when
it is well-formed. -/
theorem appendWif_validation (pkValid : Wif → Bool) (b : TransactionBuilder)
    (wif : Wif) (hne : wif ≠ "") :
    (pkValid wif = false →
      TransactionBuilder.appendWif pkValid b wif = Except.error Err.invalidKeyFormat) ∧
    (pkValid wif = true →
      TransactionBuilder.appendWif pkValid b wif =
        Except.ok { b with wifs := b.wifs ++ [wif] }) := by
  constructor
  · intro hv
    simp [TransactionBuilder.appendWif, hne, hv]
  · intro hv
    simp [TransactionBuilder.appendWif, hne, hv]

/-- C4 witness: with a validator accepting exactly `"5Jgood"`, the malformed
non-empty input `"not-a-key"` is rejected with `InvalidKeyFormat` and the
well-formed input `"5Jgood"` is appended. -/
theorem appendWif_validation_witness :
    (TransactionBuilder.appendWif (fun w => w == "5Jgood") egBuilder "not-a-key" =
      Except.error Err.invalidKeyFormat) ∧
    (TransactionBuilder.appendWif (fun w => w == "5Jgood") egBuilder "5Jgood" =
      Except.ok { egBuilder with wifs := egBuilder.wifs ++ ["5Jgood"] }) :=
  ⟨(appendWif_validation (fun w => w == "5Jgood") egBuilder "not-a-key"
      (by decide)).1 (by decide),
   (appendWif_validation (fun w => w == "5Jgood") egBuilder "5Jgood"
      (by decide)).2 (by decide)⟩

/-- C5: on a builder not in dry-run mode, when `verify_authority` answers
false, `broadcast()` fails with `InsufficientAuthority` after making exactly
the one `verifyAuthority` call — `broadcastTransaction` is never invoked, and
the raise leaves the builder's signed state intact. -/
theorem broadcast_insufficient_authority (b : TransactionBuilder)
    (broadcastOk : Bool) (h : b.no_broadcast = false) :
    b.broadcast false broadcastOk =
      (Except.error Err.insufficientAuthority, [ChainCall.verifyAuthority]) ∧
    ChainCall.broadcastTransaction ∉ (b.broadcast false broadcastOk).2 := by
  constructor
  · simp [TransactionBuilder.broadcast, h]
  · simp [TransactionBuilder.broadcast, h]

/-- C5 witness: the fresh example builder is not in dry-run mode, and a false
authority verification makes `broadcast()` fail without a broadcast call. -/
theorem broadcast_insufficient_authority_witness :
    egBuilder.broadcast false true =
      (Except.error Err.insufficientAuthority, [ChainCall.verifyAuthority]) ∧
    ChainCall.broadcastTransaction ∉ (egBuilder.broadcast false true).2 :=
  broadcast_insufficient_authority egBuilder true rfl

/-- C6: with `no_broadcast = true`, `broadcast()` makes no ChainClient call at
all (neither `verifyAuthority` nor `broadcastTransaction`), returns the
builder successfully, and the returned builder is the input itself — no field,
in particular `signatures`, is altered. -/
theorem broadcast_dry_run (b : TransactionBuilder) (verifyResult broadcastOk : Bool)
    (h : b.no_broadcast = true) :
    b.broadcast verifyResult broadcastOk = (Except.ok b, []) := by
  simp [TransactionBuilder.broadcast, h]

/-- C6 witness: a dry-run builder's `broadcast()` returns it unchanged with an
empty call trace. -/
theorem broadcast_dry_run_witness :
    (TransactionBuilder.empty true 30).broadcast true true =
      (Except.ok (TransactionBuilder.empty true 30), []) :=
  broadcast_dry_run (TransactionBuilder.empty true 30) true true rfl

/-- C7: for an existing account, `appendSigner` with any permission tag other
than `"active"`, `"posting"` or `"owner"` fails with the invalid-permission
error and (raising before the append) adds nothing to `wifs`; with a tag in
that set it appends the key material the keystore resolves for that account
and permission. -/
theorem appendSigner_permissions (env : Env) (b : TransactionBuilder)
    (account permission : String) (acct : AccountData)
    (hacc : env.accounts account = some acct) :
    (permission ≠ "active" → permission ≠ "posting" → permission ≠ "owner" →
      b.appendSigner env account permission =
        Except.error Err.invalidPermissionLevel) ∧
    (∀ k, (permission = "active" ∨ permission = "posting" ∨ permission = "owner") →
      env.keyFor acct.name permission = some k →
      b.appendSigner env account permission =
        Except.ok { b with wifs := b.wifs ++ [k] }) := by
  constructor
  · intro hna hnp hno
    simp [TransactionBuilder.appendSigner, hacc, hna, hnp, hno]
  · intro k hp hk
    rcases hp with hp | hp | hp <;> subst hp <;>
      simp [TransactionBuilder.appendSigner, hacc, hk]

/-- C7 witness: in the example environment, `appendSigner("alice", "memo")`
fails with the invalid-permission error, and `appendSigner("alice", "active")`
appends the keystore's active key for alice. -/
theorem appendSigner_permissions_witness :
    (egBuilder.appendSigner egEnv "alice" "memo" =
      Except.error Err.invalidPermissionLevel) ∧
    (egBuilder.appendSigner egEnv "alice" "active" =
      Except.ok { egBuilder with wifs := egBuilder.wifs ++ ["5Jalice"] }) :=
  ⟨(appendSigner_permissions egEnv egBuilder "alice" "memo" aliceAcct
      (by decide)).1 (by decide) (by decide) (by decide),
   (appendSigner_permissions egEnv egBuilder "alice" "active" aliceAcct
      (by decide)).2 "5Jalice" (Or.inl rfl) (by decide)⟩

/-- C8 counterexample: a falsy non-dict seed — Python's `0`, `""` or `[]` —
does not make construction fail: `if tx and not isinstance(tx, dict)` is
false for it, so `__init__` succeeds with an empty builder instead of raising
the construction error the claim requires for every non-dict seed. -/
theorem init_falsy_nonDict_seed_accepted :
    TransactionBuilder.init false 30 (some (Seed.nonDict false)) =
      Except.ok (TransactionBuilder.empty false 30) ∧
    TransactionBuilder.init false 30 (some (Seed.nonDict false)) ≠
      Except.error Err.invalidConstructionInput := by
  constructor
  · rfl
  · simp [TransactionBuilder.init]

/-- C8 (amended): a truthy non-dict seed makes construction fail with the
construction error; a falsy non-dict seed is treated like no seed and yields
an empty builder; a dict seed and the absent seed construct successfully. -/
theorem init_seed_validation (no_broadcast : Bool) (expiration : Nat) :
    (TransactionBuilder.init no_broadcast expiration (some (Seed.nonDict true)) =
      Except.error Err.invalidConstructionInput) ∧
    (TransactionBuilder.init no_broadcast expiration (some (Seed.nonDict false)) =
      Except.ok (TransactionBuilder.empty no_broadcast expiration)) ∧
    (∀ c : TxDict, ∃ b, TransactionBuilder.init no_broadcast expiration
        (some (Seed.dict c)) = Except.ok b ∧
      b.signatures = c.signatures ∧
      b.required_authorities = c.required_authorities ∧
      b.missing_signatures = c.missing_signatures) ∧
    (TransactionBuilder.init no_broadcast expiration none =
      Except.ok (TransactionBuilder.empty no_broadcast expiration)) := by
  refine ⟨rfl, rfl, ?_, rfl⟩
  intro c
  exact ⟨_, rfl, rfl, rfl, rfl⟩

/-- Helper: when every delegated account in `l` is known to the directory,
the `required_authorities` loop completes without error. -/
theorem requiredAuthsLoop_isOk (env : Env) (permission : String)
    (l : List (String × Nat)) (ra : List (String × Option Authority))
    (h : ∀ aa ∈ l, (env.accounts aa.1).isSome) :
    ∃ ra2, requiredAuthsLoop env permission ra l = Except.ok ra2 := by
  induction l generalizing ra with
  | nil => exact ⟨ra, rfl⟩
  | cons aa rest ih =>
    obtain ⟨a, ha⟩ := Option.isSome_iff_exists.mp (h aa (by simp))
    simp only [requiredAuthsLoop, ha]
    exact ih _ (fun bb hb => h bb (by simp [hb]))

/-- Helper: when every delegated account in `l` is known and has the
permission, the `missing_signatures` loop appends, in `l`'s order, each
delegated account's `key_auths` public keys to the accumulator. -/
theorem missingSigsLoop_eq (env : Env) (permission : String) (ms : List PubKey)
    (l : List (String × Nat))
    (h : ∀ aa ∈ l, ∃ a auth, env.accounts aa.1 = some a ∧
        a.getPerm permission = some auth) :
    missingSigsLoop env permission ms l =
      Except.ok (ms ++ (l.map (delegatedKeys env permission)).flatten) := by
  induction l generalizing ms with
  | nil => simp [missingSigsLoop]
  | cons aa rest ih =>
    obtain ⟨a, auth, ha, hauth⟩ := h aa (by simp)
    have hrest : ∀ bb ∈ rest, ∃ a2 auth2, env.accounts bb.1 = some a2 ∧
        a2.getPerm permission = some auth2 := fun bb hb => h bb (by simp [hb])
    simp only [missingSigsLoop, ha, hauth]
    rw [ih _ hrest]
    simp [delegatedKeys, ha, hauth, List.append_assoc]

/-- C1: when the target account exists with the given authority at the
requested permission and every depth-1 delegated account exists and has that
permission, `addSigningInformation` writes `missing_signatures` as the target
authority's `key_auths` public keys followed, in `account_auths` order, by
each delegated account's `key_auths` public keys at the same permission — the
delegated accounts' own `account_auths` are not expanded, and no
deduplication or weight-threshold evaluation is applied to the flat list. -/
theorem addSigningInformation_flat_candidates (env : Env)
    (b : TransactionBuilder) (account permission : String)
    (accountObj : AccountData) (authority : Authority)
    (hacc : env.accounts account = some accountObj)
    (hauth : accountObj.getPerm permission = some authority)
    (hdel : ∀ aa ∈ authority.account_auths, ∃ a auth, env.accounts aa.1 = some a ∧
        a.getPerm permission = some auth) :
    ∃ b2, TransactionBuilder.addSigningInformation env b account permission =
        Except.ok b2 ∧
      b2.missing_signatures = authority.key_auths.map Prod.fst ++
        (authority.account_auths.map (delegatedKeys env permission)).flatten := by
  obtain ⟨ra2, hra2⟩ := requiredAuthsLoop_isOk env permission
    authority.account_auths [(account, some authority)] (fun aa haa => by
      obtain ⟨a, _, ha, _⟩ := hdel aa haa
      simp [ha])
  have hms := missingSigsLoop_eq env permission
    (authority.key_auths.map Prod.fst) authority.account_auths hdel
  have hcore : addSigningInformationCore env account permission =
      Except.ok (ra2, authority.key_auths.map Prod.fst ++
        (authority.account_auths.map (delegatedKeys env permission)).flatten) := by
    simp only [addSigningInformationCore, hacc, hauth, hra2, hms]
  refine ⟨{ b with
              required_authorities := ra2,
              missing_signatures := authority.key_auths.map Prod.fst ++
                (authority.account_auths.map (delegatedKeys env permission)).flatten,
              blockchain := some env.chain_params }, ?_, rfl⟩
  simp only [TransactionBuilder.addSigningInformation, hcore]

/-- C1 witness: the spec's example — `alice.active` has key auth `pubA` and
delegates to `bob`, whose `active` key auth is `pubB` — yields
`missing_signatures = [pubA, pubB]` exactly. -/
theorem addSigningInformation_flat_candidates_witness :
    (∃ b2, TransactionBuilder.addSigningInformation egEnv egBuilder "alice" "active" =
        Except.ok b2 ∧
      b2.missing_signatures = aliceActive.key_auths.map Prod.fst ++
        (aliceActive.account_auths.map (delegatedKeys egEnv "active")).flatten) ∧
    aliceActive.key_auths.map Prod.fst ++
        (aliceActive.account_auths.map (delegatedKeys egEnv "active")).flatten =
      ["pubA", "pubB"] := by
  refine ⟨addSigningInformation_flat_candidates egEnv egBuilder "alice" "active"
    aliceAcct aliceActive rfl rfl ?_, by decide⟩
  intro aa haa
  have haa2 : aa = ("bob", 1) := by
    simpa [aliceActive] using haa
  subst haa2
  exact ⟨bobAcct, bobActive, rfl, rfl⟩

/-- Helper: a successful `addSigningInformation` call got its
`required_authorities` and `missing_signatures` from
`addSigningInformationCore`, which only reads the directory and the call's
arguments. -/
theorem addSigningInformation_fields (env : Env) (b : TransactionBuilder)
    (account permission : String) (c : TransactionBuilder)
    (h : TransactionBuilder.addSigningInformation env b account permission =
      Except.ok c) :
    ∃ res, addSigningInformationCore env account permission = Except.ok res ∧
      c.required_authorities = res.1 ∧ c.missing_signatures = res.2 := by
  unfold TransactionBuilder.addSigningInformation at h
  cases hc : addSigningInformationCore env account permission with
  | error e =>
    rw [hc] at h
    exact absurd h (by simp)
  | ok res =>
    rw [hc] at h
    injection h with h
    subst h
    exact ⟨res, rfl, rfl, rfl⟩

/-- C10: `addSigningInformation` replaces `required_authorities` and
`missing_signatures` wholesale — two successful calls with the same account
and permission, on builders holding arbitrarily different earlier entries,
end with identical `required_authorities` and `missing_signatures`, so
entries recorded by earlier calls for other accounts are discarded, not
merged. -/
theorem addSigningInformation_overwrites (env : Env)
    (b1 b2 : TransactionBuilder) (account permission : String)
    (c1 c2 : TransactionBuilder)
    (h1 : TransactionBuilder.addSigningInformation env b1 account permission =
      Except.ok c1)
    (h2 : TransactionBuilder.addSigningInformation env b2 account permission =
      Except.ok c2) :
    c1.required_authorities = c2.required_authorities ∧
    c1.missing_signatures = c2.missing_signatures := by
  obtain ⟨res1, hc1, hr1, hm1⟩ := addSigningInformation_fields env b1 account permission c1 h1
  obtain ⟨res2, hc2, hr2, hm2⟩ := addSigningInformation_fields env b2 account permission c2 h2
  rw [hc1] at hc2
  injection hc2 with hc2
  subst hc2
  exact ⟨hr1.trans hr2.symm, hm1.trans hm2.symm⟩

/-- C10 witness: resolving `("alice", "active")` on a fresh builder and on a
builder holding stale entries for `carol` ends with identical
`required_authorities` and `missing_signatures` — the stale entries are
discarded. -/
theorem addSigningInformation_overwrites_witness :
    (egResolved egBuilder).required_authorities =
      (egResolved egStaleBuilder).required_authorities ∧
    (egResolved egBuilder).missing_signatures =
      (egResolved egStaleBuilder).missing_signatures :=
  addSigningInformation_overwrites egEnv egBuilder egStaleBuilder "alice" "active"
    (egResolved egBuilder) (egResolved egStaleBuilder) rfl rfl

end SteemTB

